import Mathlib

/-!
Verification of `enforce/settings.py`: the configuration engine of a runtime
type-enforcement tool.  The Python module maintains a process-wide mutable
settings object (`_GLOBAL_SETTINGS`), a parser that shapes partial option
dictionaries against a canonical default shape, an applier that folds the
shaped options into the global state, and a lightweight per-call `Settings`
view.  We embed the module shallowly: the global state becomes an explicit
`GlobalState` value threaded through the operations, Python dictionaries
become insertion-ordered association lists, Python `None` becomes an explicit
sentinel, and exceptions become an error value returned together with the
state reached at the moment of the raise (Python mutations performed before a
raise persist, so the error carries the partially updated state).
-/

/-!
Dynamic values passed through option dictionaries, mirroring the Python
values the module actually handles: `None`, booleans, strings, small ints and
nested dicts.  `Entries` is the insertion-ordered entry list of a dict; it is
a separate mutual inductive (rather than `List (String × Value)`) so that the
recursive deep merge below is structural.
-/
mutual
inductive Value where
  | vNone : Value
  | vBool : Bool → Value
  | vStr : String → Value
  | vNat : Nat → Value
  | vDict : Entries → Value
inductive Entries where
  | nil : Entries
  | cons : String → Value → Entries → Entries
end

/-- Build an entry list from a Lean list literal. -/
def entriesOf : List (String × Value) → Entries
  | [] => Entries.nil
  | (k, v) :: rest => Entries.cons k v (entriesOf rest)

/-- Dict lookup (`d.get(k)` / `k in d`) on entry lists. -/
def Entries.lookup : Entries → String → Option Value
  | Entries.nil, _ => none
  | Entries.cons k1 v1 rest, k =>
      if k1 = k then some v1 else Entries.lookup rest k

/-- Concatenation of entry lists. -/
def Entries.append : Entries → Entries → Entries
  | Entries.nil, us => us
  | Entries.cons k v rest, us => Entries.cons k v (Entries.append rest us)

/-- The entries of `us` whose keys do not occur in `ds` (insertion order
kept): the update keys a merge against `ds` would not visit. -/
def Entries.extrasOver : Entries → Entries → Entries
  | Entries.nil, _ => Entries.nil
  | Entries.cons k v rest, ds =>
      if (Entries.lookup ds k).isNone then
        Entries.cons k v (Entries.extrasOver rest ds)
      else Entries.extrasOver rest ds

/-- Python truthiness of the embedded values (`if v:`): `None` is falsy, a
string or dict is truthy iff non-empty, a number iff non-zero. -/
def truthy : Value → Bool
  | Value.vNone => false
  | Value.vBool b => b
  | Value.vStr s => !(s == "")
  | Value.vNat n => !(n == 0)
  | Value.vDict Entries.nil => false
  | Value.vDict (Entries.cons _ _ _) => true

/-- The Python test `v is None` on an embedded value. -/
def Value.isNoneV : Value → Bool
  | Value.vNone => true
  | _ => false

/-- The entries of a dict value (`d.items()`); non-dicts have none. -/
def Value.entries : Value → Entries
  | Value.vDict es => es
  | _ => Entries.nil

/-- Dict lookup on association lists with values of an arbitrary type (used
for the `groups` mapping of the global state). -/
def alookup {α : Type} : List (String × α) → String → Option α
  | [], _ => none
  | (k1, v1) :: rest, k => if k1 = k then some v1 else alookup rest k

/-- Dict assignment `d[k] = v`: overwrite the existing binding in place, or
append a new one (Python dicts preserve insertion order). -/
def setKey {α : Type} : List (String × α) → String → α → List (String × α)
  | [], k, v => [(k, v)]
  | (k1, v1) :: rest, k, v =>
      if k1 = k then (k1, v) :: rest else (k1, v1) :: setKey rest k v

/-- Dict bulk update `d.update(u)`: assign every binding of `u` in order. -/
def dictUpdate {α : Type} (d : List (String × α)) (u : List (String × α)) :
    List (String × α) :=
  u.foldl (fun acc p => setKey acc p.1 p.2) d

/-- `ModeChoices` enum from `settings.py` (the numeric member values 0..3 are
never consulted by the module, only the members themselves).  Enum members
are always truthy in Python, which matters for `Settings.mode` below. -/
inductive ModeChoices where
  | invariant : ModeChoices
  | covariant : ModeChoices
  | contravariant : ModeChoices
  | bivariant : ModeChoices
deriving DecidableEq, Repr

/-- `ModeChoices[value]` — lookup of an enum member by name; `none` embeds
the `KeyError` path of an unrecognized name. -/
def modeByName : String → Option ModeChoices
  | "invariant" => some ModeChoices.invariant
  | "covariant" => some ModeChoices.covariant
  | "contravariant" => some ModeChoices.contravariant
  | "bivariant" => some ModeChoices.bivariant
  | _ => none

/-- The `_GLOBAL_SETTINGS` object (`GlobalSettingsObject`).  Its four
standard keys become fields; `extra` holds the dynamically added keys the
open-ended container permits (`__setitem__` with an arbitrary key), which
`reset_config`'s key-diffing removes.  `enabled` is stored through truthiness
since it is only ever read as `if not _GLOBAL_SETTINGS['enabled']`; `default`
keeps the raw stored value since the module never reads it back. -/
structure GlobalState where
  enabled : Bool
  default : Value
  mode : ModeChoices
  groups : List (String × Bool)
  extra : List (String × Value)

/-- The state `GlobalSettingsObject.__init__` builds at process start. -/
def initialState : GlobalState :=
  GlobalState.mk true (Value.vBool true) ModeChoices.invariant [] []

/-- The per-call `Settings` view: a group name (`group or 'default'` applied
at construction) and the local override `_enabled`. -/
structure Settings where
  group : String
  _enabled : Option Bool
deriving DecidableEq, Repr

/-- `Settings.__init__(enabled=None, group=None)`: `self.group = group or
'default'` — note Python `or`, so an empty string also falls back. -/
def Settings.make (enabled : Option Bool) (group : Option String) : Settings :=
  Settings.mk
    (match group with
     | none => "default"
     | some g => if g = "" then "default" else g)
    enabled

/-- The `Settings.enabled` property (read): kill-switch first, then the local
override check, then `_GLOBAL_SETTINGS['groups'].get(self.group, False)`. -/
def Settings.enabledGet (st : GlobalState) (s : Settings) : Bool :=
  if !st.enabled then false
  else
    match s._enabled with
    | none => (alookup st.groups s.group).getD false
    | some b => b

/-- The `Settings.enabled` setter: `self._enabled = value` — it assigns an
instance attribute only, so its embedding neither receives nor returns a
`GlobalState`. -/
def Settings.setEnabled (s : Settings) (value : Bool) : Settings :=
  Settings.mk s.group (some value)

/-- The `Settings.mode` property: `_GLOBAL_SETTINGS['mode'] or
ModeChoices.invariant`; enum members are truthy, so this returns the stored
mode. -/
def Settings.modeGet (st : GlobalState) (_s : Settings) : ModeChoices :=
  st.mode

/-- The `Settings.covariant` property: mode in (covariant, bivariant). -/
def Settings.covariantGet (st : GlobalState) (_s : Settings) : Bool :=
  decide (st.mode = ModeChoices.covariant ∨ st.mode = ModeChoices.bivariant)

/-- The `Settings.contravariant` property: mode in (contravariant,
bivariant). -/
def Settings.contravariantGet (st : GlobalState) (_s : Settings) : Bool :=
  decide (st.mode = ModeChoices.contravariant ∨ st.mode = ModeChoices.bivariant)

/-- `Settings.__bool__`: `bool(self.enabled)`. -/
def Settings.toBool (st : GlobalState) (s : Settings) : Bool :=
  Settings.enabledGet st s

/-!
Modelled from the spec: `merge_dictionaries` is imported from
`enforce/utils.py`, which is not among the provided sources.  Spec section
4.1: for each key of `defaults`, copy the default when `update` omits it,
recurse when both values are mappings, and otherwise take `update`'s value
verbatim (including an explicit `None`); keys present in `update` but absent
from `defaults` are not silently dropped — they survive into the merged
structure so the applier can surface them as errors.  Neither input is
mutated; merging a non-mapping over anything takes the update verbatim.
-/
mutual
/-- Modelled from the spec: the deep merge on values (see the comment above). -/
def merge_dictionaries : Value → Value → Value
  | Value.vDict ds, Value.vDict us =>
      Value.vDict (Entries.append (mergeEntries ds us) (Entries.extrasOver us ds))
  | _, u => u
def mergeEntries : Entries → Entries → Entries
  | Entries.nil, _ => Entries.nil
  | Entries.cons k dv rest, us =>
      Entries.cons k
        (match Entries.lookup us k with
         | none => dv
         | some uv => merge_dictionaries dv uv)
        (mergeEntries rest us)
end

/-- The canonical default shape from `parse_config`. -/
def default_options : Value :=
  Value.vDict (entriesOf
    [("enabled", Value.vNone),
     ("groups", Value.vDict (entriesOf
        [("set", Value.vDict Entries.nil),
         ("disable_previous", Value.vBool false),
         ("enable_previous", Value.vBool false),
         ("clear_previous", Value.vBool false),
         ("default", Value.vNone)])),
     ("mode", Value.vNone)])

/-- `parse_config(options)`: deep-merge the caller's partial options into the
canonical default shape. -/
def parse_config (options : Value) : Value :=
  merge_dictionaries default_options options

/-- The `KeyError`s `apply_config` can raise, plus the `AttributeError`
Python raises when `.items()` is called on a non-dict (unreachable through
`config`, whose parser always supplies dicts in those positions). -/
inductive ConfigError where
  | reservedGroup : ConfigError
  | unknownGroupOption : String → ConfigError
  | invalidMode : ConfigError
  | unknownOption : String → ConfigError
  | attributeError : ConfigError
deriving DecidableEq, Repr

/-- The inner loop of the `'set'` branch of `apply_config`: for each
`(group_name, group_status)` raise on the reserved name `'default'` (checked
before the `None` filter), otherwise record non-`None` statuses into the
pending `group_update` dict. -/
def setLoop (gu : List (String × Bool)) :
    Entries → Except ConfigError (List (String × Bool))
  | Entries.nil => Except.ok gu
  | Entries.cons group_name group_status rest =>
      if group_name = "default" then Except.error ConfigError.reservedGroup
      else if group_status.isNoneV then setLoop gu rest
      else setLoop (setKey gu group_name (truthy group_status)) rest

/-- The loop over the shaped `'groups'` dict in `apply_config`: collect the
`previous_update` flag letters in encounter order, store the `'default'`
option into the global state immediately, build `group_update` from `'set'`
(possibly raising), and reject unknown nested keys.  An error result carries
the state reached so far, since Python mutations before a raise persist. -/
def groupsLoop (st : GlobalState) (gu : List (String × Bool))
    (pu : List Char) :
    Entries →
    Except (GlobalState × ConfigError)
      (GlobalState × List (String × Bool) × List Char)
  | Entries.nil => Except.ok (st, gu, pu)
  | Entries.cons k v rest =>
      if k = "disable_previous" then
        groupsLoop st gu (if truthy v then pu ++ ['d'] else pu) rest
      else if k = "enable_previous" then
        groupsLoop st gu (if truthy v then pu ++ ['e'] else pu) rest
      else if k = "clear_previous" then
        groupsLoop st gu (if truthy v then pu ++ ['c'] else pu) rest
      else if k = "default" then
        groupsLoop (if v.isNoneV then st else { st with default := v })
          gu pu rest
      else if k = "set" then
        match v with
        | Value.vDict es =>
            match setLoop gu es with
            | Except.ok gu2 => groupsLoop st gu2 pu rest
            | Except.error e => Except.error (st, e)
        | _ =>
            -- `v.items()` on a non-dict raises AttributeError; reachable only
            -- by calling the applier directly with a malformed shape.
            Except.error (st, ConfigError.attributeError)
      else Except.error (st, ConfigError.unknownGroupOption k)

/-- Lines 176-186 of `settings.py`: apply the collected bulk flags to the
groups dict in the fixed order disable-all, enable-all, clear. -/
def applyPrevious (gs : List (String × Bool)) (pu : List Char) :
    List (String × Bool) :=
  if pu.isEmpty then gs
  else
    let gs1 := if pu.contains 'd' then gs.map (fun p => (p.1, false)) else gs
    let gs2 := if pu.contains 'e' then gs1.map (fun p => (p.1, true)) else gs1
    if pu.contains 'c' then [] else gs2

/-- The top-level loop of `apply_config` over `options.items()`: `'enabled'`
stores any non-`None` value, `'groups'` runs the group machinery and then
commits `applyPrevious` followed by `dict.update(group_update)`, `'mode'`
looks the enum member up by name (raising on an unrecognized name), and any
other key raises.  The returned state is the global state when the loop
finishes or when an exception escapes. -/
def applyLoop (st : GlobalState) :
    Entries → GlobalState × Option ConfigError
  | Entries.nil => (st, none)
  | Entries.cons key value rest =>
      if key = "enabled" then
        applyLoop
          (if value.isNoneV then st else { st with enabled := truthy value })
          rest
      else if key = "groups" then
        match value with
        | Value.vDict es =>
            match groupsLoop st [] [] es with
            | Except.ok (st1, gu, pu) =>
                applyLoop
                  { st1 with
                      groups := dictUpdate (applyPrevious st1.groups pu) gu }
                  rest
            | Except.error (st1, e) => (st1, some e)
        | _ => (st, some ConfigError.attributeError)
      else if key = "mode" then
        match value with
        | Value.vNone => applyLoop st rest
        | Value.vStr s =>
            match modeByName s with
            | some m => applyLoop { st with mode := m } rest
            | none => (st, some ConfigError.invalidMode)
        | _ =>
            -- `ModeChoices[v]` raises KeyError for any non-member-name value,
            -- which line 195 re-raises as the invalid-mode error.
            (st, some ConfigError.invalidMode)
      else (st, some (ConfigError.unknownOption key))

/-- `reset_config()`: delete every key outside the four defaults (`extra`
becomes empty), restore `enabled`, `default` and `mode` (the `None` value for
`'groups'` in `default_values` is skipped), then clear the groups dict in
place. -/
def reset_config (st : GlobalState) : GlobalState :=
  { st with
      enabled := true
      default := Value.vBool true
      mode := ModeChoices.invariant
      groups := []
      extra := [] }

/-- `apply_config(options, reset)` without the reset branch (handled in
`config` below): iterate the shaped option entries. -/
def apply_config (options : Value) (st : GlobalState) :
    GlobalState × Option ConfigError :=
  match options with
  | Value.vDict es => applyLoop st es
  | _ => (st, some ConfigError.attributeError)

/-- `config(options, reset=...)`: when `reset` is truthy the options are
never parsed and `reset_config` runs; otherwise the parsed options are
applied. -/
def config (options : Value) (reset : Bool) (st : GlobalState) :
    GlobalState × Option ConfigError :=
  if reset then (reset_config st, none)
  else apply_config (parse_config options) st

/-- Looking up the key just assigned returns the assigned value. -/
theorem alookup_setKey_self {α : Type} (gs : List (String × α)) (k : String)
    (v : α) : alookup (setKey gs k v) k = some v := by
  induction gs with
  | nil => simp [setKey, alookup]
  | cons p rest ih =>
      obtain ⟨k1, v1⟩ := p
      by_cases hp : k1 = k
      · simp [setKey, hp, alookup]
      · simp [setKey, hp, alookup, ih]

/-- Assigning one key leaves the lookup of every other key unchanged. -/
theorem alookup_setKey_ne {α : Type} (gs : List (String × α)) (k : String)
    (v : α) (k2 : String) (h : k2 ≠ k) :
    alookup (setKey gs k v) k2 = alookup gs k2 := by
  induction gs with
  | nil => simp [setKey, alookup, Ne.symm h]
  | cons p rest ih =>
      obtain ⟨k1, v1⟩ := p
      by_cases hp : k1 = k
      · simp [setKey, hp, alookup, Ne.symm h]
      · simp [setKey, hp, alookup, ih]

/-- Forcing every value of a groups dict to the constant `b` rewrites exactly
the present keys. -/
theorem alookup_map_const (gs : List (String × Bool)) (k : String) (b : Bool) :
    alookup (gs.map (fun p => (p.1, b))) k = (alookup gs k).map (fun _ => b) := by
  induction gs with
  | nil => simp [alookup]
  | cons p rest ih =>
      obtain ⟨k1, v1⟩ := p
      by_cases hp : k1 = k <;> simp [alookup, hp, ih]

/-- Options of spec section 8: `{'groups': {'set': {'g': True},
'disable_previous': True}}`. -/
def bulkDisableOpts : Value :=
  Value.vDict (entriesOf
    [("groups", Value.vDict (entriesOf
       [("set", Value.vDict (entriesOf [("g", Value.vBool true)])),
        ("disable_previous", Value.vBool true)]))])

/-- Options of spec section 8: `{'groups': {'clear_previous': True,
'enable_previous': True}}`. -/
def clearEnableOpts : Value :=
  Value.vDict (entriesOf
    [("groups", Value.vDict (entriesOf
       [("clear_previous", Value.vBool true),
        ("enable_previous", Value.vBool true)]))])

/-- Options `{'groups': {'set': {'g': True}, 'clear_previous': True}}`. -/
def clearSetOpts : Value :=
  Value.vDict (entriesOf
    [("groups", Value.vDict (entriesOf
       [("set", Value.vDict (entriesOf [("g", Value.vBool true)])),
        ("clear_previous", Value.vBool true)]))])

/-- Options carrying the three bulk flags only. -/
def flagOpts (d e c : Bool) : Value :=
  Value.vDict (entriesOf
    [("groups", Value.vDict (entriesOf
       [("disable_previous", Value.vBool d),
        ("enable_previous", Value.vBool e),
        ("clear_previous", Value.vBool c)]))])

/-- Options `{'groups': {'set': {'default': b}}}` (the reserved group). -/
def reservedSetOpts (b : Bool) : Value :=
  Value.vDict (entriesOf
    [("groups", Value.vDict (entriesOf
       [("set", Value.vDict (entriesOf [("default", Value.vBool b)]))]))])

/-- Options `{'mode': s}`. -/
def modeOpts (s : String) : Value :=
  Value.vDict (entriesOf [("mode", Value.vStr s)])

/-- A one-entry options dict `{k: v}`. -/
def singleOpts (k : String) (v : Value) : Value :=
  Value.vDict (Entries.cons k v Entries.nil)

/-- Options `{'groups': {'set': {name: None}}}`. -/
def setNoneOpts (name : String) : Value :=
  Value.vDict (entriesOf
    [("groups", Value.vDict (entriesOf
       [("set", Value.vDict (entriesOf [(name, Value.vNone)]))]))])

/-- Options `{'groups': {'set': {'g': True}}}`. -/
def setGOpts : Value :=
  Value.vDict (entriesOf
    [("groups", Value.vDict (entriesOf
       [("set", Value.vDict (entriesOf [("g", Value.vBool true)]))]))])

/-- C1: the `Settings.enabled` read in the source falls back to `False`, not
to `GlobalState.default`, when the instance has no local override and its
group has no explicit entry.  On the initial state (whose `default` is
`True`), a `Settings(group='g')` read therefore returns `false`, while the
claim (and the rest of the module: the `'default'` config option and the
reserved-group error message, which only make sense if the field is ever
read) says it should return the stored default, `true`.  This theorem
evaluates the code at that failing input. -/
theorem claim_c1_default_fallback :
    Settings.enabledGet initialState (Settings.make none (some "g")) = false ∧
    initialState.default = Value.vBool true ∧
    alookup initialState.groups "g" = none :=
  ⟨rfl, rfl, rfl⟩

/-- C2: the bulk flags are applied to the groups dict in the fixed order
disable-all, enable-all, clear, with the explicit `'set'` entries merged
afterwards: after `config({'groups': {'set': {'g': True},
'disable_previous': True}})` group `'g'` is `True` while every pre-existing
other group becomes `False`; `config({'groups': {'clear_previous': True,
'enable_previous': True}})` empties the groups dict; `'set'` also survives a
simultaneous clear; and for arbitrary flag combinations the final groups dict
is literally clear-after-enable-after-disable. -/
theorem claim_c2_group_precedence (st : GlobalState) (d e c : Bool) :
    (config bulkDisableOpts false st).2 = none ∧
    alookup (config bulkDisableOpts false st).1.groups "g" = some true ∧
    (∀ k, k ≠ "g" → (alookup st.groups k).isSome →
      alookup (config bulkDisableOpts false st).1.groups k = some false) ∧
    config clearEnableOpts false st = ({ st with groups := [] }, none) ∧
    config clearSetOpts false st = ({ st with groups := [("g", true)] }, none) ∧
    config (flagOpts d e c) false st =
      ({ st with groups :=
          (if c then []
           else if e then
             (if d then st.groups.map (fun p => (p.1, false)) else st.groups).map
               (fun p => (p.1, true))
           else if d then st.groups.map (fun p => (p.1, false)) else st.groups) },
        none) := by
  have hc : config bulkDisableOpts false st
      = ({ st with
            groups := setKey (st.groups.map (fun p => (p.1, false))) "g" true },
         none) := rfl
  refine ⟨rfl, ?_, ?_, rfl, rfl, ?_⟩
  · rw [hc]
    exact alookup_setKey_self _ _ _
  · intro k hk hsome
    rw [hc]
    show alookup (setKey (st.groups.map (fun p => (p.1, false))) "g" true) k
        = some false
    rw [alookup_setKey_ne _ _ _ _ hk, alookup_map_const]
    obtain ⟨b, hb⟩ := Option.isSome_iff_exists.mp hsome
    rw [hb]
    rfl
  · cases d <;> cases e <;> cases c <;> rfl

/-- C2 witness: on a state with a pre-existing group `'h'`, the bulk-disable
call leaves `'h'` at `False`. -/
theorem claim_c2_group_precedence_witness :
    alookup (config bulkDisableOpts false
        (GlobalState.mk true (Value.vBool true) ModeChoices.invariant
          [("h", true)] [])).1.groups "h" = some false :=
  (claim_c2_group_precedence
      (GlobalState.mk true (Value.vBool true) ModeChoices.invariant
        [("h", true)] [])
      false false false).2.2.1 "h" (by decide) (by decide)

/-- C3: `config(reset=True)` restores the global state to exactly
`{enabled: true, default: true, mode: invariant, groups: {}}` from any prior
state (extra dynamically added keys included), ignores any options argument,
and is idempotent. -/
theorem claim_c3_reset (st : GlobalState) (opts opts2 : Value) :
    config opts true st
      = (GlobalState.mk true (Value.vBool true) ModeChoices.invariant [] [],
         none) ∧
    config opts true st = config opts2 true st ∧
    config opts true (config opts true st).1 = config opts true st :=
  ⟨rfl, rfl, rfl⟩

/-- C4: `config({'groups': {'set': {'default': b}}})` raises the
reserved-group error for either boolean, and the global state — in
particular its `default` field and its groups dict — is unchanged at the
moment of the raise. -/
theorem claim_c4_reserved_group (b : Bool) (st : GlobalState) :
    config (reservedSetOpts b) false st = (st, some ConfigError.reservedGroup) :=
  rfl

/-- C5: whenever the global kill-switch is off, every `Settings.enabled` read
returns `false` — whatever the group, the groups dict, the stored default and
any local override. -/
theorem claim_c5_kill_switch (st : GlobalState) (s : Settings)
    (h : st.enabled = false) : Settings.enabledGet st s = false := by
  obtain ⟨en, de, mo, gr, ex⟩ := st
  cases h
  rfl

/-- C5 witness: the kill-switch theorem at a concrete disabled state. -/
theorem claim_c5_kill_switch_witness :
    Settings.enabledGet
      (GlobalState.mk false (Value.vBool true) ModeChoices.invariant
        [("g", true)] [])
      (Settings.make (some true) (some "g")) = false :=
  claim_c5_kill_switch _ _ rfl

/-- C6: `config({'mode': s})` with a string outside the four variance-mode
names raises the invalid-mode error and leaves the state (hence its mode)
unchanged; a recognized name stores the enum member of that name. -/
theorem claim_c6_mode_validation (st : GlobalState) (s : String) :
    (modeByName s = none →
      config (modeOpts s) false st = (st, some ConfigError.invalidMode)) ∧
    (∀ m, modeByName s = some m →
      config (modeOpts s) false st = ({ st with mode := m }, none)) := by
  have key : config (modeOpts s) false st
      = (match modeByName s with
         | some m => ({ st with mode := m }, none)
         | none => (st, some ConfigError.invalidMode)) := rfl
  constructor
  · intro h
    rw [key, h]
  · intro m h
    rw [key, h]

/-- C6 witness: an unrecognized mode name fails and leaves the state alone; a
recognized one is stored. -/
theorem claim_c6_mode_validation_witness :
    config (modeOpts "bogus") false initialState
      = (initialState, some ConfigError.invalidMode) ∧
    config (modeOpts "covariant") false initialState
      = ({ initialState with mode := ModeChoices.covariant }, none) :=
  ⟨(claim_c6_mode_validation initialState "bogus").1 rfl,
   (claim_c6_mode_validation initialState "covariant").2 ModeChoices.covariant rfl⟩

/-- C7: for every top-level key outside `{enabled, mode, groups}` and every
value, the unknown key survives the parse step (the merge keeps it, with its
value, next to the shaped defaults) and the applier raises the
unknown-top-level-option error naming it, from any state. -/
theorem claim_c7_unknown_option (st : GlobalState) (k : String) (v : Value)
    (h1 : k ≠ "enabled") (h2 : k ≠ "mode") (h3 : k ≠ "groups") :
    Entries.lookup (parse_config (singleOpts k v)).entries k = some v ∧
    config (singleOpts k v) false st = (st, some (ConfigError.unknownOption k)) := by
  constructor
  · simp [singleOpts, config, apply_config, parse_config, default_options,
      merge_dictionaries, mergeEntries, entriesOf, Entries.lookup, Entries.append,
      Entries.extrasOver, Value.entries, h1, h2, h3, Ne.symm h1, Ne.symm h2,
      Ne.symm h3]
  · simp [singleOpts, config, apply_config, parse_config, default_options,
      merge_dictionaries, mergeEntries, entriesOf, Entries.lookup, Entries.append,
      Entries.extrasOver, Value.entries, applyLoop, groupsLoop, setLoop,
      applyPrevious, dictUpdate, truthy, Value.isNoneV, h1, h2, h3,
      Ne.symm h1, Ne.symm h2, Ne.symm h3]

/-- C7 witness: the spec's own example `config({'bogus': 1})`. -/
theorem claim_c7_unknown_option_witness :
    Entries.lookup (parse_config (singleOpts "bogus" (Value.vNat 1))).entries
        "bogus" = some (Value.vNat 1) ∧
    config (singleOpts "bogus" (Value.vNat 1)) false initialState
      = (initialState, some (ConfigError.unknownOption "bogus")) :=
  claim_c7_unknown_option initialState "bogus" (Value.vNat 1)
    (by decide) (by decide) (by decide)

/-- C8: writing the `enabled` property touches only the instance (the
embedding of the setter has no access to the global state, mirroring
`self._enabled = value`), and when the kill-switch is on a local override
outranks the group state: after `config({'groups': {'set': {'g': True}}})`, a
`Settings(enabled=False, group='g')` still reads `False` while a fresh
`Settings(group='g')` reads `True`. -/
theorem claim_c8_local_override (st : GlobalState) (h : st.enabled = true)
    (s : Settings) (v : Bool) :
    (Settings.setEnabled s v).group = s.group ∧
    (Settings.setEnabled s v)._enabled = some v ∧
    (config setGOpts false st).2 = none ∧
    Settings.enabledGet (config setGOpts false st).1
      (Settings.make (some false) (some "g")) = false ∧
    Settings.enabledGet (config setGOpts false st).1
      (Settings.make none (some "g")) = true := by
  have hc : config setGOpts false st
      = ({ st with groups := setKey st.groups "g" true }, none) := rfl
  obtain ⟨en, de, mo, gr, ex⟩ := st
  cases h
  refine ⟨rfl, rfl, rfl, rfl, ?_⟩
  rw [hc]
  show (alookup (setKey gr "g" true) "g").getD false = true
  rw [alookup_setKey_self]
  rfl

/-- C8 witness: the local-override theorem at the initial state. -/
theorem claim_c8_local_override_witness :
    Settings.enabledGet (config setGOpts false initialState).1
      (Settings.make (some false) (some "g")) = false ∧
    Settings.enabledGet (config setGOpts false initialState).1
      (Settings.make none (some "g")) = true :=
  ⟨(claim_c8_local_override initialState rfl (Settings.make none none)
      true).2.2.2.1,
   (claim_c8_local_override initialState rfl (Settings.make none none)
      true).2.2.2.2⟩

/-- C9: the reserved-group check precedes the `None`-as-unchanged filter:
`set` of `{'default': None}` raises the reserved-group error (with the state
untouched), while a `None` status for any other group name is skipped and the
whole call leaves the state unchanged. -/
theorem claim_c9_reserved_before_none (st : GlobalState) (name : String)
    (h : name ≠ "default") :
    config (setNoneOpts "default") false st
      = (st, some ConfigError.reservedGroup) ∧
    config (setNoneOpts name) false st = (st, none) := by
  refine ⟨rfl, ?_⟩
  have hset : setLoop [] (Entries.cons name Value.vNone Entries.nil)
      = Except.ok [] := by
    have e : setLoop [] (Entries.cons name Value.vNone Entries.nil)
        = if name = "default" then Except.error ConfigError.reservedGroup
          else if (Value.vNone).isNoneV then setLoop [] Entries.nil
          else setLoop (setKey [] name (truthy Value.vNone)) Entries.nil := rfl
    rw [e, if_neg h]
    rfl
  have key : config (setNoneOpts name) false st
      = (match
           (match setLoop [] (Entries.cons name Value.vNone Entries.nil) with
            | Except.ok gu2 =>
                groupsLoop st gu2 []
                  (entriesOf
                    [("disable_previous", Value.vBool false),
                     ("enable_previous", Value.vBool false),
                     ("clear_previous", Value.vBool false),
                     ("default", Value.vNone)])
            | Except.error e => Except.error (st, e)) with
         | Except.ok (st1, gu, pu) =>
             applyLoop
               { st1 with groups := dictUpdate (applyPrevious st1.groups pu) gu }
               (Entries.cons "mode" Value.vNone Entries.nil)
         | Except.error (st1, e) => (st1, some e)) := rfl
  rw [key, hset]
  rfl

/-- C9 witness: the theorem at the initial state and group name `'g'`. -/
theorem claim_c9_reserved_before_none_witness :
    config (setNoneOpts "g") false initialState = (initialState, none) :=
  (claim_c9_reserved_before_none initialState "g" (by decide)).2

/-- C10: no read accessor of `Settings` (`enabled`, `mode`, `covariant`,
`contravariant`, boolean conversion) depends on `GlobalState.default`: two
global states differing only in that field give identical reads for every
instance. -/
theorem claim_c10_default_independence (st : GlobalState) (d1 d2 : Value)
    (s : Settings) :
    Settings.enabledGet { st with default := d1 } s
      = Settings.enabledGet { st with default := d2 } s ∧
    Settings.modeGet { st with default := d1 } s
      = Settings.modeGet { st with default := d2 } s ∧
    Settings.covariantGet { st with default := d1 } s
      = Settings.covariantGet { st with default := d2 } s ∧
    Settings.contravariantGet { st with default := d1 } s
      = Settings.contravariantGet { st with default := d2 } s ∧
    Settings.toBool { st with default := d1 } s
      = Settings.toBool { st with default := d2 } s :=
  ⟨rfl, rfl, rfl, rfl, rfl⟩
